import Mathlib

/-!
Shallow embedding of the SolidTime Obsidian plugin core (main.ts, api.ts,
modals.ts, settings.ts): payload construction, wire-format timestamps,
duration formatting, the transport/pagination layer, and the timer
session state machine, together with proofs of the specified properties.
JavaScript objects are embedded as association lists of keys to JSON-ish
values, strings are Lean strings (the empty string plays the role of a
falsy string), machine numbers are Nat/Int, and asynchronous API results
are passed in explicitly as `Except` values of a mocked environment.
-/

namespace SolidTime

/-- JSON-ish values appearing in the request payloads built by the plugin. -/
inductive JsonVal where
  | null
  | str (s : String)
  | bool (b : Bool)
  | strList (l : List String)
  deriving DecidableEq, Repr

/-- Embedding of a nullable string field into a JSON value. -/
def jsonOfOptStr : Option String → JsonVal
  | none => .null
  | some s => .str s

/-- Embedding of a nullable string-array field into a JSON value. -/
def jsonOfOptList : Option (List String) → JsonVal
  | none => .null
  | some l => .strList l

/-- types.ts `TimeEntryResource`. The `end` field is `string | null`;
`start` and `organization_id` are typed as required strings but the plugin
defensively checks their truthiness, so the empty string models absence. -/
structure TimeEntryResource where
  id : String
  start : String
  «end» : Option String
  description : Option String
  task_id : Option String
  project_id : Option String
  organization_id : String
  user_id : String
  tags : List String
  billable : Bool
  deriving DecidableEq, Repr

/-- types.ts `UserResource` (fields relevant to the core). -/
structure UserResource where
  id : String
  name : String
  email : String
  deriving DecidableEq, Repr

/-- types.ts `MemberResource` (fields relevant to the core). -/
structure MemberResource where
  id : String
  user_id : String
  name : String
  deriving DecidableEq, Repr

/-- types.ts `ProjectResource` (fields relevant to the core). -/
structure ProjectResource where
  id : String
  name : String
  is_archived : Bool
  deriving DecidableEq, Repr

/-- types.ts `TaskResource` (fields relevant to the core). -/
structure TaskResource where
  id : String
  name : String
  project_id : String
  deriving DecidableEq, Repr

/-- types.ts `TagResource` (fields relevant to the core). -/
structure TagResource where
  id : String
  name : String
  deriving DecidableEq, Repr

/-- settings.ts `SolidTimeSettings`. -/
structure SolidTimeSettings where
  apiKey : String
  apiBaseUrl : String
  selectedOrganizationId : String
  selectedMemberId : String
  statusBarUpdateIntervalSeconds : Nat
  autoFetchIntervalMinutes : Nat
  defaultBillable : Bool
  deriving DecidableEq, Repr

/-- The mutable fields of `SolidTimePlugin` that the core operations touch. -/
structure PluginState where
  settings : SolidTimeSettings
  activeTimeEntry : Option TimeEntryResource
  currentUser : Option UserResource
  projects : List ProjectResource
  tasks : List TaskResource
  tags : List TagResource
  deriving DecidableEq, Repr

/-! ### Wire-format timestamps

main.ts builds timestamps with `moment.utc().format("YYYY-MM-DDTHH:mm:ss") + 'Z'`.
The moment formatter is embedded as fixed-width decimal rendering of the
broken-down UTC time components. -/

/-- A broken-down UTC instant as moment exposes it. -/
structure UTCTime where
  year : Nat
  month : Nat
  day : Nat
  hour : Nat
  minute : Nat
  second : Nat
  deriving DecidableEq, Repr

/-- The ASCII digit character for a single decimal digit. -/
def digitChar (d : Nat) : Char := Char.ofNat (48 + d)

/-- Two-digit zero-padded decimal rendering (moment `MM`, `DD`, `HH`, `mm`, `ss`). -/
def pad2 (n : Nat) : List Char := [digitChar (n / 10), digitChar (n % 10)]

/-- Four-digit zero-padded decimal rendering (moment `YYYY`, for years below 10000). -/
def pad4 (n : Nat) : List Char :=
  [digitChar (n / 1000 % 10), digitChar (n / 100 % 10), digitChar (n / 10 % 10), digitChar (n % 10)]

/-- `moment.utc().format("YYYY-MM-DDTHH:mm:ss") + 'Z'`. -/
def formatUtcWire (t : UTCTime) : String :=
  ⟨pad4 t.year ++ '-' :: pad2 t.month ++ '-' :: pad2 t.day ++
    'T' :: pad2 t.hour ++ ':' :: pad2 t.minute ++ ':' :: pad2 t.second ++ ['Z']⟩

/-- Checker for the exact UTC wire format `YYYY-MM-DDTHH:mm:ssZ`
(written from the spec's description of the wire format, as the reference
against which the generated timestamps are judged). -/
def isWireFormat (s : String) : Bool :=
  match s.data with
  | [y1, y2, y3, y4, h1, m1, m2, h2, d1, d2, tc, o1, o2, c1, n1, n2, c2, s1, s2, zc] =>
    y1.isDigit && y2.isDigit && y3.isDigit && y4.isDigit && h1 = '-' &&
    m1.isDigit && m2.isDigit && h2 = '-' && d1.isDigit && d2.isDigit &&
    tc = 'T' && o1.isDigit && o2.isDigit && c1 = ':' && n1.isDigit && n2.isDigit &&
    c2 = ':' && s1.isDigit && s2.isDigit && zc = 'Z'
  | _ => false

/-! ### Request payload construction (main.ts) -/

/-- The `options` argument of `startTimer`. -/
structure StartTimerOptions where
  description : Option String
  projectId : Option String
  taskId : Option String
  tagIds : List String
  billable : Bool
  deriving DecidableEq, Repr

/-- The object literal built in `startTimer` (main.ts lines 502-510). -/
def startPayload (memberId : String) (start : String) (options : StartTimerOptions) :
    List (String × JsonVal) :=
  [("member_id", .str memberId),
   ("start", .str start),
   ("billable", .bool options.billable),
   ("project_id", jsonOfOptStr options.projectId),
   ("task_id", jsonOfOptStr options.taskId),
   ("description", jsonOfOptStr options.description),
   ("tags", if 0 < options.tagIds.length then .strList options.tagIds else .null)]

/-- The `payloadToSend` object literal built in `stopCurrentTimer`
(main.ts lines 569-578); the `start` field is commented out in the source. -/
def stopPayload (correctMemberId : String) (endTs : String) (entryToStop : TimeEntryResource) :
    List (String × JsonVal) :=
  [("member_id", .str correctMemberId),
   ("end", .str endTs),
   ("billable", .bool entryToStop.billable),
   ("project_id", jsonOfOptStr entryToStop.project_id),
   ("task_id", jsonOfOptStr entryToStop.task_id),
   ("description", jsonOfOptStr entryToStop.description),
   ("tags", .strList entryToStop.tags)]

/-- The `updates` argument of `updateActiveTimerDetails`; the outer `Option`
records whether the key is present on the object (the code tests presence
with the `in` operator), the inner `Option` is the nullable value. -/
structure TimerUpdates where
  description : Option (Option String)
  projectId : Option (Option String)
  taskId : Option (Option String)
  tagIds : Option (List String)
  billable : Option Bool
  deriving DecidableEq, Repr

/-- The `payloadToSend` object literal built in `updateActiveTimerDetails`
(main.ts lines 351-360); both `start` and `end` are commented out in the source. -/
def updatePayload (correctMemberId : String) (updates : TimerUpdates)
    (entryToUpdate : TimeEntryResource) : List (String × JsonVal) :=
  [("member_id", .str correctMemberId),
   ("billable", .bool (match updates.billable with
      | some b => b
      | none => entryToUpdate.billable)),
   ("project_id", jsonOfOptStr (match updates.projectId with
      | some p => p
      | none => entryToUpdate.project_id)),
   ("task_id", jsonOfOptStr (match updates.taskId with
      | some t => t
      | none => entryToUpdate.task_id)),
   ("description", jsonOfOptStr (match updates.description with
      | some d => d
      | none => entryToUpdate.description)),
   ("tags", match updates.tagIds with
      | some l => .strList l
      | none => .strList entryToUpdate.tags)]

/-! ### Duration formatting (main.ts `formatDuration`) -/

/-- The JS `number` domain as the plugin uses it for millisecond durations:
`NaN` or an integral count of milliseconds. -/
inductive JsNumber where
  | nan
  | int (ms : Int)
  deriving DecidableEq, Repr

/-- Decimal rendering of a natural number, as JS `String(n)` produces it. -/
def decRepr (n : Nat) : List Char :=
  if _ : n < 10 then [digitChar n]
  else decRepr (n / 10) ++ [digitChar (n % 10)]
  termination_by n
  decreasing_by exact Nat.div_lt_self (by omega) (by omega)

/-- JS `String.prototype.padStart(2, '0')` on a character list. -/
def padStart2 (s : List Char) : List Char :=
  if 2 ≤ s.length then s else List.replicate (2 - s.length) '0' ++ s

/-- main.ts `formatDuration` (lines 473-487): `NaN` and negative inputs give
`"00:00:00"`; otherwise hours are the floored total hour count and minutes
and seconds are the moment-duration components, each zero-padded to two digits. -/
def formatDuration : JsNumber → String
  | .nan => "00:00:00"
  | .int durationMs =>
    if durationMs < 0 then "00:00:00"
    else
      let n := durationMs.toNat
      let hours := padStart2 (decRepr (n / 3600000))
      let minutes := padStart2 (decRepr (n / 60000 % 60))
      let seconds := padStart2 (decRepr (n / 1000 % 60))
      ⟨hours ++ ':' :: minutes ++ ':' :: seconds⟩

/-- Numeric value of a list of decimal digit characters. -/
def valOfDigits (l : List Char) : Nat :=
  l.foldl (fun a c => 10 * a + (c.toNat - 48)) 0

/-! ### Transport layer (api.ts `SolidTimeApi.request`) -/

/-- A resolved HTTP response as obsidian's `requestUrl` delivers it with
`throw = false`: a status code and the parsed JSON body (`none` models an
empty or absent body). -/
structure HttpResponse (β : Type) where
  status : Nat
  json : Option β
  deriving DecidableEq, Repr

/-- The `{ data: ... }` envelope used by most endpoints. -/
structure DataEnvelope (β : Type) where
  data : β
  deriving DecidableEq, Repr

/-- Outcome of `request`: either a resolved value (possibly `null`) or a
thrown error carrying its message. -/
inductive RequestResult (β : Type) where
  | ok (value : Option β)
  | thrown (msg : String)
  deriving DecidableEq, Repr

/-- api.ts `SolidTimeApi.request` (lines 262-372), given the response the
network delivered: classify by status, returning `null` for 204 and for
statuses on the `allowedNon2xxStatuses` list, the parsed body for other
2xx statuses, and throwing (after showing exactly one notice) otherwise.
The second component is the list of user-facing notices shown. -/
def request (allowedNon2xxStatuses : List Nat) (resp : HttpResponse β) :
    RequestResult β × List String :=
  if (200 ≤ resp.status ∧ resp.status < 300) ∨ resp.status ∈ allowedNon2xxStatuses then
    if resp.status = 204 then (.ok none, [])
    else if resp.status ∈ allowedNon2xxStatuses then (.ok none, [])
    else
      match resp.json with
      | some body => (.ok (some body), [])
      | none => (.ok none, [])
  else
    let errorMsg := "SolidTime API Error: " ++ toString resp.status
    (.thrown errorMsg, [errorMsg])

/-- api.ts `SolidTimeApi.getActiveTimeEntry` (lines 421-456): request
`/v1/users/me/time-entries/active` with 404 whitelisted; `null` from the
transport (404 or empty body) maps to "no active entry". -/
def getActiveTimeEntry (resp : HttpResponse (DataEnvelope TimeEntryResource)) :
    Except String (Option TimeEntryResource) × List String :=
  match request [404] resp with
  | (.thrown msg, notices) => (.error msg, notices)
  | (.ok none, notices) => (.ok none, notices)
  | (.ok (some envl), notices) => (.ok (some envl.data), notices)

/-! ### Paginator (api.ts `SolidTimeApi.fetchAllPaginated`) -/

/-- One page response as the pagination loop sees it: a well-formed envelope
whose `data` is an array with an optional `links.next`, or a malformed
envelope (no `data` array). -/
inductive PageResponse (α : Type) where
  | page (data : List α) (next : Option String)
  | malformed
  deriving DecidableEq, Repr

/-- api.ts `SolidTimeApi.fetchAllPaginated` (lines 496-531), with the server
modelled as a map from URLs to responses (`none` models a request that
resolved to `null`, e.g. a 204). The `while` loop is embedded with explicit
fuel: `none` as a result means the loop has not finished within `fuel`
iterations, so the function terminates exactly when some fuel suffices. -/
def fetchAllPaginated (pages : String → Option (PageResponse α)) :
    Nat → List α → Option String → Option (List α)
  | _, allData, none => some allData
  | 0, _, some _ => none
  | fuel + 1, allData, some nextPageUrl =>
    match pages nextPageUrl with
    | some (.page data next) =>
      let allData := allData ++ data
      if 10000 < allData.length then some allData
      else fetchAllPaginated pages fuel allData next
    | _ => some allData

/-- The pagination loop terminates on the given starting URL. -/
def fetchTerminates (pages : String → Option (PageResponse α)) (initialUrl : String) : Prop :=
  ∃ fuel, (fetchAllPaginated pages fuel [] (some initialUrl)).isSome

/-! ### Timer session controller (main.ts)

The plugin methods are embedded as state transformers. Network results are
supplied by an `ApiEnv` of mocked resolutions, and every observable action
(API call, optimistic clear, UI refresh, notice) is recorded in order in an
event trace. -/

/-- An outgoing network call, with its payload where one is sent. -/
inductive ApiCall where
  | getMe
  | getMembers (orgId : String)
  | postTimeEntry (orgId : String) (payload : List (String × JsonVal))
  | putTimeEntry (orgId : String) (timeEntryId : String) (payload : List (String × JsonVal))
  | getActive
  | postTag (orgId : String) (name : String)
  deriving DecidableEq, Repr

/-- One observable step of a plugin operation, in program order. -/
inductive Event where
  | call (c : ApiCall)
  | clearedActiveEntry
  | uiRefresh
  | notice (msg : String)
  deriving DecidableEq, Repr

/-- The network calls contained in an event trace, in order. -/
def callsOf (evs : List Event) : List ApiCall :=
  evs.filterMap fun e =>
    match e with
    | .call c => some c
    | _ => none

/-- Mocked resolutions of the API methods an operation may await. -/
structure ApiEnv where
  getMeResult : Except String UserResource
  getMembersResult : String → Except String (List MemberResource)
  postResult : Except String TimeEntryResource
  putResult : Except String TimeEntryResource
  getActiveResult : Except String (Option TimeEntryResource)

/-- Whether `setupApi` yields an API client: both key and base URL set
(main.ts lines 249-259). -/
def apiConfigured (st : PluginState) : Bool :=
  !(st.settings.apiKey = "" || st.settings.apiBaseUrl = "")

/-- The message `checkSettingsAndApi` picks for its notice (main.ts lines 261-277). -/
def checkMessage (st : PluginState) : String :=
  if st.settings.apiKey = "" || st.settings.apiBaseUrl = "" then
    "SolidTime API Key or Base URL not set."
  else "SolidTime organization not selected."

/-- main.ts `checkSettingsAndApi` (lines 261-277): key, base URL and
organization must be set (when key and URL are set, `setupApi` always
produces a client, so the third branch never fails). -/
def checkSettingsAndApi (st : PluginState) : Bool :=
  !(st.settings.apiKey = "" || st.settings.apiBaseUrl = "" ||
    st.settings.selectedOrganizationId = "")

/-- main.ts `updateStatus` (lines 404-430): refetch the active entry and
replace the local reference with whatever the server reports, `none` on
error or when the API is not configured. -/
def updateStatus (env : ApiEnv) (st : PluginState) : PluginState × List Event :=
  if !apiConfigured st then ({ st with activeTimeEntry := none }, [])
  else
    match env.getActiveResult with
    | .ok v => ({ st with activeTimeEntry := v }, [.call .getActive, .uiRefresh])
    | .error _ => ({ st with activeTimeEntry := none }, [.call .getActive, .uiRefresh])

/-- main.ts `startTimer` (lines 489-523). -/
def startTimer (env : ApiEnv) (now : UTCTime) (options : StartTimerOptions)
    (st : PluginState) : PluginState × List Event :=
  if !checkSettingsAndApi st then
    (st, [.notice (checkMessage st ++ " Please configure in plugin settings.")])
  else if st.settings.selectedMemberId = "" then
    (st, [.notice "Error: Member ID missing. Please re-select organization in settings."])
  else
    match st.activeTimeEntry with
    | some _ => (st, [.notice "SolidTime: Please stop the current timer first."])
    | none =>
      let start := formatUtcWire now
      let payload := startPayload st.settings.selectedMemberId start options
      match env.postResult with
      | .ok newEntry =>
        ({ st with activeTimeEntry := some newEntry },
         [.notice "SolidTime: Starting timer...",
          .call (.postTimeEntry st.settings.selectedOrganizationId payload),
          .uiRefresh, .notice "SolidTime: Timer started!"])
      | .error _ =>
        (st, [.notice "SolidTime: Starting timer...",
              .call (.postTimeEntry st.settings.selectedOrganizationId payload)])

/-- Body of `stopCurrentTimer` after the current user is known
(main.ts lines 538-597); `evs0` is the trace accumulated so far. -/
def stopWithUser (env : ApiEnv) (now : UTCTime) (st : PluginState)
    (user : UserResource) (evs0 : List Event) : PluginState × List Event :=
  match st.activeTimeEntry with
  | none => (st, evs0 ++ [.notice "SolidTime: No timer is currently running."])
  | some entryToStop =>
    if entryToStop.organization_id = "" || entryToStop.start = "" then
      let r := updateStatus env st
      (r.1, evs0 ++
        [.notice "Error: Cannot stop timer, active entry data is incomplete. Please refresh."]
        ++ r.2)
    else
      let orgIdForEntry := entryToStop.organization_id
      let endTs := formatUtcWire now
      match env.getMembersResult orgIdForEntry with
      | .error _ =>
        (st, evs0 ++ [.call (.getMembers orgIdForEntry),
          .notice "Error: Failed to fetch organization members. Cannot stop timer."])
      | .ok members =>
        match members.find? (fun member => member.user_id = user.id) with
        | none =>
          (st, evs0 ++ [.call (.getMembers orgIdForEntry),
            .notice ("Error: Your user was not found in the timer's organization (" ++
              orgIdForEntry ++ "). Cannot stop timer."),
            .notice "Error: Could not determine correct Member ID. Cannot stop timer."])
        | some currentMembership =>
          let payloadToSend := stopPayload currentMembership.id endTs entryToStop
          let stCleared := { st with activeTimeEntry := none }
          let evsPre := evs0 ++ [.call (.getMembers orgIdForEntry),
            .notice "SolidTime: Stopping timer...", .clearedActiveEntry, .uiRefresh,
            .call (.putTimeEntry orgIdForEntry entryToStop.id payloadToSend)]
          match env.putResult with
          | .ok _ => (stCleared, evsPre ++ [.notice "SolidTime: Timer stopped!"])
          | .error _ =>
            let r := updateStatus env stCleared
            (r.1, evsPre ++ r.2 ++
              [.notice "SolidTime: Failed to stop timer. Status refreshed."])

/-- main.ts `stopCurrentTimer` (lines 525-597). -/
def stopCurrentTimer (env : ApiEnv) (now : UTCTime) (st : PluginState) :
    PluginState × List Event :=
  if !apiConfigured st then (st, [.notice "SolidTime: API not configured."])
  else
    match st.currentUser with
    | some user => stopWithUser env now st user []
    | none =>
      match env.getMeResult with
      | .ok user => stopWithUser env now { st with currentUser := some user } user [.call .getMe]
      | .error _ =>
        (st, [.call .getMe,
          .notice "Error: Could not verify current user. Cannot stop timer."])

/-- Body of `updateActiveTimerDetails` after the current user is known
(main.ts lines 331-383). -/
def updateWithUser (env : ApiEnv) (updates : TimerUpdates) (st : PluginState)
    (user : UserResource) (evs0 : List Event) : PluginState × List Event :=
  match st.activeTimeEntry with
  | none => (st, evs0 ++ [.notice "SolidTime: No timer is running to update."])
  | some entryToUpdate =>
    if entryToUpdate.organization_id = "" || entryToUpdate.start = "" then
      (st, evs0 ++ [.notice "Error: Active entry data incomplete."])
    else
      let orgIdForEntry := entryToUpdate.organization_id
      match env.getMembersResult orgIdForEntry with
      | .error _ =>
        (st, evs0 ++ [.call (.getMembers orgIdForEntry), .notice "Error fetching members."])
      | .ok members =>
        match members.find? (fun member => member.user_id = user.id) with
        | none =>
          (st, evs0 ++ [.call (.getMembers orgIdForEntry),
            .notice ("Error: User not found in org " ++ orgIdForEntry ++ ".")])
        | some currentMembership =>
          let payloadToSend := updatePayload currentMembership.id updates entryToUpdate
          let evsPre := evs0 ++ [.call (.getMembers orgIdForEntry),
            .notice "SolidTime: Updating timer...",
            .call (.putTimeEntry orgIdForEntry entryToUpdate.id payloadToSend)]
          match env.putResult with
          | .ok updatedEntry =>
            ({ st with activeTimeEntry := some updatedEntry },
             evsPre ++ [.uiRefresh, .notice "SolidTime: Timer updated!"])
          | .error _ =>
            let r := updateStatus env st
            (r.1, evsPre ++ [.notice "SolidTime: Failed to update timer. Check console."] ++ r.2)

/-- main.ts `updateActiveTimerDetails` (lines 317-383). -/
def updateActiveTimerDetails (env : ApiEnv) (updates : TimerUpdates) (st : PluginState) :
    PluginState × List Event :=
  if !apiConfigured st then (st, [.notice "SolidTime: API not configured."])
  else
    match st.currentUser with
    | some user => updateWithUser env updates st user []
    | none =>
      match env.getMeResult with
      | .ok user =>
        updateWithUser env updates { st with currentUser := some user } user [.call .getMe]
      | .error _ => (st, [.call .getMe, .notice "Error: Could not verify current user."])

/-- main.ts `loadSolidTimeData` (lines 296-315): the combined
`Promise.all` fetch of projects, tasks and tags is one mocked result;
any rejection clears all three caches. -/
def loadSolidTimeData
    (fetchResult : Except String (List ProjectResource × List TaskResource × List TagResource))
    (st : PluginState) : PluginState :=
  if !apiConfigured st || st.settings.selectedOrganizationId = "" then
    { st with projects := [], tasks := [], tags := [] }
  else
    match fetchResult with
    | .ok (projects, tasks, tags) => { st with projects := projects, tasks := tasks, tags := tags }
    | .error _ => { st with projects := [], tasks := [], tags := [] }

/-! ### Tag creation (main.ts `createTag`, modals.ts `TagSelectionModal`) -/

/-- The sort order used for the tag caches: `a.name.localeCompare(b.name)`,
embedded as the lexicographic order on names. -/
def tagLe (a b : TagResource) : Prop := a.name ≤ b.name

instance : DecidableRel tagLe := fun a b => inferInstanceAs (Decidable (a.name ≤ b.name))

instance : IsTotal TagResource tagLe := ⟨fun a b => le_total a.name b.name⟩

instance : IsTrans TagResource tagLe := ⟨fun _ _ _ h1 h2 => le_trans h1 h2⟩

/-- ASCII lower-casing of one character. -/
def toLowerChar (c : Char) : Char :=
  if 65 ≤ c.toNat ∧ c.toNat ≤ 90 then Char.ofNat (c.toNat + 32) else c

/-- JS `toLowerCase`, embedded character-wise over ASCII. -/
def toLowerCase (s : String) : String := ⟨s.data.map toLowerChar⟩

/-- main.ts `createTag` (lines 385-402): create the tag remotely, push it
onto the local cache and re-sort the cache by name. Returns the new state,
the trace, and the created tag (or `none` on any failure, as the method
resolves to `null`). The empty-name guard is api.ts `createTag`'s
fail-fast check, whose thrown error the plugin catches. -/
def createTag (postTagResult : Except String TagResource) (st : PluginState)
    (tagName : String) : PluginState × List Event × Option TagResource :=
  if !checkSettingsAndApi st then
    (st, [.notice (checkMessage st ++ " Please configure in plugin settings.")], none)
  else if st.settings.selectedOrganizationId = "" then
    (st, [.notice "No organization selected in settings."], none)
  else if tagName = "" then (st, [], none)
  else
    match postTagResult with
    | .ok newTag =>
      ({ st with tags := List.insertionSort tagLe (st.tags ++ [newTag]) },
       [.call (.postTag st.settings.selectedOrganizationId tagName)], some newTag)
    | .error _ => (st, [.call (.postTag st.settings.selectedOrganizationId tagName)], none)

/-- modals.ts `TagSelectionModal` Create-button handler (lines 119-150):
reject empty names and names already present in the modal's tag list
(case-insensitively) before any network call; otherwise create via the
plugin and insert the returned tag into the modal's sorted list. Returns
the plugin state, the modal's `availableTags`, and the trace. -/
def tagModalCreateClick (postTagResult : Except String TagResource) (st : PluginState)
    (availableTags : List TagResource) (newTagName : String) :
    PluginState × List TagResource × List Event :=
  if newTagName = "" then (st, availableTags, [.notice "Please enter a tag name."])
  else if availableTags.any (fun t => toLowerCase t.name = toLowerCase newTagName) then
    (st, availableTags, [.notice ("Tag \"" ++ newTagName ++ "\" already exists.")])
  else
    match createTag postTagResult st newTagName with
    | (st', evs, some newTag) =>
      (st', List.insertionSort tagLe (availableTags ++ [newTag]),
       evs ++ [.notice ("Tag \"" ++ newTag.name ++ "\" created.")])
    | (st', evs, none) => (st', availableTags, evs)

/-! ### Concrete fixtures used to instantiate the theorems -/

/-- A fully configured settings object. -/
def settingsOk : SolidTimeSettings :=
  ⟨"key1", "https://example.test/api", "org1", "m1", 30, 15, false⟩

/-- The same settings with the cached member id absent. -/
def settingsNoMemberId : SolidTimeSettings :=
  ⟨"key1", "https://example.test/api", "org1", "", 30, 15, false⟩

/-- A current user. -/
def userU1 : UserResource := ⟨"u1", "User One", "u1@example.test"⟩

/-- The membership of `userU1` in organization `org1`. -/
def memberM1 : MemberResource := ⟨"m1", "u1", "User One"⟩

/-- A running time entry in organization `org1`. -/
def entryE1 : TimeEntryResource :=
  ⟨"e1", "2024-01-01T00:00:00Z", none, none, none, none, "org1", "u1", [], false⟩

/-- A concrete UTC instant. -/
def t0 : UTCTime := ⟨2024, 1, 1, 12, 0, 0⟩

/-- Start options leaving every optional field empty. -/
def optsNone : StartTimerOptions := ⟨none, none, none, [], false⟩

/-- No field present on the updates object. -/
def updatesNone : TimerUpdates := ⟨none, none, none, none, none⟩

/-- Configured state with `entryE1` running. -/
def stRunning : PluginState := ⟨settingsOk, some entryE1, some userU1, [], [], []⟩

/-- Configured idle state. -/
def stIdle : PluginState := ⟨settingsOk, none, some userU1, [], [], []⟩

/-- Idle state whose cached member id is absent. -/
def stNoMemberId : PluginState := ⟨settingsNoMemberId, none, some userU1, [], [], []⟩

/-- An environment where every call succeeds and `userU1` is a member. -/
def envOk : ApiEnv :=
  ⟨.ok userU1, fun _ => .ok [memberM1], .ok entryE1, .ok entryE1, .ok none⟩

/-- An environment where the member list of every organization is empty. -/
def envNoMatch : ApiEnv :=
  ⟨.ok userU1, fun _ => .ok [], .ok entryE1, .ok entryE1, .ok none⟩

/-- An environment where writes fail and the refetch still reports `entryE1`. -/
def envPutFail : ApiEnv :=
  ⟨.ok userU1, fun _ => .ok [memberM1], .error "SolidTime API Error: 500",
   .error "SolidTime API Error: 500", .ok (some entryE1)⟩

/-- A mock server with three linked pages of ten items each. -/
def pages3 : String → Option (PageResponse Nat) := fun u =>
  if u = "p1" then some (.page [1, 2, 3, 4, 5, 6, 7, 8, 9, 10] (some "p2"))
  else if u = "p2" then some (.page [11, 12, 13, 14, 15, 16, 17, 18, 19, 20] (some "p3"))
  else if u = "p3" then some (.page [21, 22, 23, 24, 25, 26, 27, 28, 29, 30] none)
  else none

/-- A mock server whose every page has ten items and a cyclic next link. -/
def pagesCycle10 : String → Option (PageResponse Nat) := fun _ =>
  some (.page [1, 2, 3, 4, 5, 6, 7, 8, 9, 10] (some "again"))

/-- A mock server whose every page has an empty data array and a cyclic
next link. -/
def pagesEmptyCycle : String → Option (PageResponse Nat) := fun _ =>
  some (.page [] (some "again"))

/-! ### Lemmas about decimal rendering and the wire format -/

theorem digitChar_isDigit : ∀ d, d < 10 → (digitChar d).isDigit = true := by decide

theorem digitChar_mod10_isDigit (n : Nat) : (digitChar (n % 10)).isDigit = true :=
  digitChar_isDigit _ (Nat.mod_lt _ (by omega))

theorem formatUtcWire_isWireFormat (t : UTCTime) (hy : t.year < 10000)
    (hmo : t.month ≤ 12) (hd : t.day ≤ 31) (hh : t.hour < 24)
    (hmi : t.minute < 60) (hs : t.second < 60) :
    isWireFormat (formatUtcWire t) = true := by
  have h1 : (digitChar (t.month / 10)).isDigit = true := digitChar_isDigit _ (by omega)
  have h2 : (digitChar (t.day / 10)).isDigit = true := digitChar_isDigit _ (by omega)
  have h3 : (digitChar (t.hour / 10)).isDigit = true := digitChar_isDigit _ (by omega)
  have h4 : (digitChar (t.minute / 10)).isDigit = true := digitChar_isDigit _ (by omega)
  have h5 : (digitChar (t.second / 10)).isDigit = true := digitChar_isDigit _ (by omega)
  simp [formatUtcWire, isWireFormat, pad4, pad2, digitChar_mod10_isDigit,
    h1, h2, h3, h4, h5]

/-- C7: a start operation's outgoing payload contains `member_id` and `start`
and no `end` key, and its `start` value is the freshly formatted current UTC
instant, which matches the wire format `YYYY-MM-DDTHH:mm:ssZ` exactly
(for any calendar-valid current time with a four-digit year). -/
theorem start_payload_shape (memberId : String) (now : UTCTime)
    (options : StartTimerOptions) (hy : now.year < 10000) (hmo : now.month ≤ 12)
    (hd : now.day ≤ 31) (hh : now.hour < 24) (hmi : now.minute < 60)
    (hs : now.second < 60) :
    (startPayload memberId (formatUtcWire now) options).map Prod.fst =
      ["member_id", "start", "billable", "project_id", "task_id", "description", "tags"] ∧
    "end" ∉ (startPayload memberId (formatUtcWire now) options).map Prod.fst ∧
    (startPayload memberId (formatUtcWire now) options).lookup "member_id" =
      some (.str memberId) ∧
    (startPayload memberId (formatUtcWire now) options).lookup "start" =
      some (.str (formatUtcWire now)) ∧
    isWireFormat (formatUtcWire now) = true := by
  have hkeys : (startPayload memberId (formatUtcWire now) options).map Prod.fst =
      ["member_id", "start", "billable", "project_id", "task_id", "description", "tags"] := rfl
  refine ⟨hkeys, ?_, rfl, rfl, formatUtcWire_isWireFormat now hy hmo hd hh hmi hs⟩
  rw [hkeys]
  decide

/-- Witness for `start_payload_shape` at noon on 2024-01-01. -/
theorem start_payload_shape_witness :
    (startPayload "m1" (formatUtcWire ⟨2024, 1, 1, 12, 0, 0⟩) ⟨none, none, none, [], true⟩).map
        Prod.fst =
      ["member_id", "start", "billable", "project_id", "task_id", "description", "tags"] ∧
    "end" ∉ (startPayload "m1" (formatUtcWire ⟨2024, 1, 1, 12, 0, 0⟩)
        ⟨none, none, none, [], true⟩).map Prod.fst ∧
    (startPayload "m1" (formatUtcWire ⟨2024, 1, 1, 12, 0, 0⟩)
        ⟨none, none, none, [], true⟩).lookup "member_id" = some (.str "m1") ∧
    (startPayload "m1" (formatUtcWire ⟨2024, 1, 1, 12, 0, 0⟩)
        ⟨none, none, none, [], true⟩).lookup "start" =
      some (.str (formatUtcWire ⟨2024, 1, 1, 12, 0, 0⟩)) ∧
    isWireFormat (formatUtcWire ⟨2024, 1, 1, 12, 0, 0⟩) = true :=
  start_payload_shape "m1" ⟨2024, 1, 1, 12, 0, 0⟩ ⟨none, none, none, [], true⟩
    (by decide) (by decide) (by decide) (by decide) (by decide) (by decide)

/-! ### C5: 404 is not an error -/

/-- C5: `getActiveTimeEntry` resolves to `null` on a 404 with zero error
notices, because 404 is whitelisted in the transport layer; on a 2xx
response carrying a body it returns the `data` field of the envelope. -/
theorem getActiveTimeEntry_404_null (resp : HttpResponse (DataEnvelope TimeEntryResource)) :
    (resp.status = 404 → getActiveTimeEntry resp = (.ok none, [])) ∧
    (∀ entry : TimeEntryResource, 200 ≤ resp.status → resp.status < 300 →
      resp.status ≠ 204 → resp.json = some ⟨entry⟩ →
      getActiveTimeEntry resp = (.ok (some entry), [])) := by
  obtain ⟨status, json⟩ := resp
  constructor
  · intro h
    simp only at h
    subst h
    cases json <;> simp [getActiveTimeEntry, request]
  · intro entry h1 h2 h3 h4
    simp only at h1 h2 h3 h4
    subst h4
    simp only [getActiveTimeEntry, request]
    have hne : ¬ (status = 404) := by omega
    simp [h1, h2, h3, hne]

/-- Witness for `getActiveTimeEntry_404_null`: a 404 response resolves to
`null` with no notices, and a 200 response with a body yields its entry. -/
theorem getActiveTimeEntry_404_null_witness :
    getActiveTimeEntry ⟨404, none⟩ = (.ok none, []) ∧
    getActiveTimeEntry
        ⟨200, some ⟨⟨"e1", "2024-01-01T00:00:00Z", none, none, none, none, "org1", "u1", [],
          false⟩⟩⟩ =
      (.ok (some ⟨"e1", "2024-01-01T00:00:00Z", none, none, none, none, "org1", "u1", [],
        false⟩), []) :=
  ⟨(getActiveTimeEntry_404_null ⟨404, none⟩).1 rfl,
   (getActiveTimeEntry_404_null _).2 _ (by decide) (by decide) (by decide) rfl⟩

/-! ### C8: atomic cache replacement -/

/-- C8: `loadSolidTimeData` replaces the projects, tasks and tags caches
together from the one combined fetch; on any failure of that fetch all three
caches are cleared to empty. -/
theorem loadSolidTimeData_atomic (st : PluginState)
    (fetchResult : Except String (List ProjectResource × List TaskResource × List TagResource)) :
    (∀ msg, fetchResult = .error msg →
      (loadSolidTimeData fetchResult st).projects = [] ∧
      (loadSolidTimeData fetchResult st).tasks = [] ∧
      (loadSolidTimeData fetchResult st).tags = []) ∧
    (∀ projects tasks tags, fetchResult = .ok (projects, tasks, tags) →
      apiConfigured st = true → st.settings.selectedOrganizationId ≠ "" →
      (loadSolidTimeData fetchResult st).projects = projects ∧
      (loadSolidTimeData fetchResult st).tasks = tasks ∧
      (loadSolidTimeData fetchResult st).tags = tags) := by
  constructor
  · intro msg h
    subst h
    simp only [loadSolidTimeData]
    split <;> simp
  · intro projects tasks tags h hconf horg
    subst h
    simp [loadSolidTimeData, hconf, horg]

/-- Witness for `loadSolidTimeData_atomic` on a configured state: a failed
combined fetch clears all three caches, a successful one installs them. -/
theorem loadSolidTimeData_atomic_witness :
    (loadSolidTimeData (.error "boom")
        ⟨⟨"key1", "https://example.test/api", "org1", "m1", 30, 15, false⟩, none, none,
          [⟨"p1", "Proj", false⟩], [⟨"t1", "Task", "p1"⟩], [⟨"g1", "Tag"⟩]⟩).projects = [] ∧
    (loadSolidTimeData (.error "boom")
        ⟨⟨"key1", "https://example.test/api", "org1", "m1", 30, 15, false⟩, none, none,
          [⟨"p1", "Proj", false⟩], [⟨"t1", "Task", "p1"⟩], [⟨"g1", "Tag"⟩]⟩).tasks = [] ∧
    (loadSolidTimeData (.error "boom")
        ⟨⟨"key1", "https://example.test/api", "org1", "m1", 30, 15, false⟩, none, none,
          [⟨"p1", "Proj", false⟩], [⟨"t1", "Task", "p1"⟩], [⟨"g1", "Tag"⟩]⟩).tags = [] ∧
    (loadSolidTimeData (.ok ([⟨"p2", "P2", false⟩], [], []))
        ⟨⟨"key1", "https://example.test/api", "org1", "m1", 30, 15, false⟩, none, none,
          [⟨"p1", "Proj", false⟩], [⟨"t1", "Task", "p1"⟩], [⟨"g1", "Tag"⟩]⟩).projects =
      [⟨"p2", "P2", false⟩] := by
  refine ⟨?_, ?_, ?_, ?_⟩
  · exact ((loadSolidTimeData_atomic _ _).1 "boom" rfl).1
  · exact ((loadSolidTimeData_atomic _ _).1 "boom" rfl).2.1
  · exact ((loadSolidTimeData_atomic _ _).1 "boom" rfl).2.2
  · exact ((loadSolidTimeData_atomic _ _).2 _ _ _ rfl (by decide) (by decide)).1

/-! ### C1: PUT payloads never contain `start` -/

theorem stopPayload_keys (correctMemberId endTs : String) (entryToStop : TimeEntryResource) :
    (stopPayload correctMemberId endTs entryToStop).map Prod.fst =
      ["member_id", "end", "billable", "project_id", "task_id", "description", "tags"] := rfl

theorem updatePayload_keys (correctMemberId : String) (updates : TimerUpdates)
    (entryToUpdate : TimeEntryResource) :
    (updatePayload correctMemberId updates entryToUpdate).map Prod.fst =
      ["member_id", "billable", "project_id", "task_id", "description", "tags"] := rfl

theorem stopPayload_no_start (correctMemberId endTs : String)
    (entryToStop : TimeEntryResource) :
    "start" ∉ (stopPayload correctMemberId endTs entryToStop).map Prod.fst := by
  rw [stopPayload_keys]
  decide

theorem updatePayload_no_start (correctMemberId : String) (updates : TimerUpdates)
    (entryToUpdate : TimeEntryResource) :
    "start" ∉ (updatePayload correctMemberId updates entryToUpdate).map Prod.fst := by
  rw [updatePayload_keys]
  decide

theorem updateStatus_no_put (env : ApiEnv) (st : PluginState) (orgId entryId : String)
    (p : List (String × JsonVal)) :
    Event.call (.putTimeEntry orgId entryId p) ∉ (updateStatus env st).2 := by
  unfold updateStatus
  split
  · simp
  · split <;> simp

theorem stopWithUser_put_no_start (env : ApiEnv) (now : UTCTime) (st : PluginState)
    (user : UserResource) (evs0 : List Event)
    (h0 : ∀ orgId entryId p, Event.call (.putTimeEntry orgId entryId p) ∈ evs0 →
      "start" ∉ p.map Prod.fst) :
    ∀ orgId entryId p,
      Event.call (.putTimeEntry orgId entryId p) ∈ (stopWithUser env now st user evs0).2 →
      "start" ∉ p.map Prod.fst := by
  intro orgId entryId p hmem
  unfold stopWithUser at hmem
  cases hA : st.activeTimeEntry with
  | none =>
    rw [hA] at hmem
    simp only [] at hmem
    simp only [List.mem_append, List.mem_cons, List.not_mem_nil, or_false, or_assoc] at hmem
    rcases hmem with h | h
    · exact h0 _ _ _ h
    · exact absurd h (by simp)
  | some entryToStop =>
    rw [hA] at hmem
    simp only [] at hmem
    cases hC : (decide (entryToStop.organization_id = "") || decide (entryToStop.start = "")) with
    | true =>
      rw [if_pos hC] at hmem
      simp only [List.mem_append, List.mem_cons, List.not_mem_nil, or_false, or_assoc] at hmem
      rcases hmem with h | h | h
      · exact h0 _ _ _ h
      · exact absurd h (by simp)
      · exact absurd h (updateStatus_no_put env st orgId entryId p)
    | false =>
      rw [if_neg (by rw [hC]; exact Bool.false_ne_true)] at hmem
      rcases hM : env.getMembersResult entryToStop.organization_id with msg | members <;>
        rw [hM] at hmem <;> simp only [] at hmem
      · simp only [List.mem_append, List.mem_cons, List.not_mem_nil, or_false, or_assoc] at hmem
        rcases hmem with h | h | h
        · exact h0 _ _ _ h
        · exact absurd h (by simp)
        · exact absurd h (by simp)
      · rcases hF : members.find? (fun member => member.user_id = user.id) with _ | mem <;>
          rw [hF] at hmem <;> simp only [] at hmem
        · simp only [List.mem_append, List.mem_cons, List.not_mem_nil, or_false, or_assoc] at hmem
          rcases hmem with h | h | h | h
          · exact h0 _ _ _ h
          · exact absurd h (by simp)
          · exact absurd h (by simp)
          · exact absurd h (by simp)
        · rcases hP : env.putResult with msg | updated <;> rw [hP] at hmem <;>
            simp only [] at hmem <;>
            simp only [List.mem_append, List.mem_cons, List.not_mem_nil, or_false,
              or_assoc] at hmem
          · rcases hmem with h | h | h | h | h | h | h | h
            · exact h0 _ _ _ h
            · exact absurd h (by simp)
            · exact absurd h (by simp)
            · exact absurd h (by simp)
            · exact absurd h (by simp)
            · simp only [Event.call.injEq, ApiCall.putTimeEntry.injEq] at h
              rw [h.2.2]
              exact stopPayload_no_start _ _ _
            · exact absurd h (updateStatus_no_put env _ orgId entryId p)
            · exact absurd h (by simp)
          · rcases hmem with h | h | h | h | h | h | h
            · exact h0 _ _ _ h
            · exact absurd h (by simp)
            · exact absurd h (by simp)
            · exact absurd h (by simp)
            · exact absurd h (by simp)
            · simp only [Event.call.injEq, ApiCall.putTimeEntry.injEq] at h
              rw [h.2.2]
              exact stopPayload_no_start _ _ _
            · exact absurd h (by simp)

theorem updateWithUser_put_no_start (env : ApiEnv) (updates : TimerUpdates)
    (st : PluginState) (user : UserResource) (evs0 : List Event)
    (h0 : ∀ orgId entryId p, Event.call (.putTimeEntry orgId entryId p) ∈ evs0 →
      "start" ∉ p.map Prod.fst) :
    ∀ orgId entryId p,
      Event.call (.putTimeEntry orgId entryId p) ∈ (updateWithUser env updates st user evs0).2 →
      "start" ∉ p.map Prod.fst := by
  intro orgId entryId p hmem
  unfold updateWithUser at hmem
  cases hA : st.activeTimeEntry with
  | none =>
    rw [hA] at hmem
    simp only [] at hmem
    simp only [List.mem_append, List.mem_cons, List.not_mem_nil, or_false, or_assoc] at hmem
    rcases hmem with h | h
    · exact h0 _ _ _ h
    · exact absurd h (by simp)
  | some entryToUpdate =>
    rw [hA] at hmem
    simp only [] at hmem
    cases hC : (decide (entryToUpdate.organization_id = "") ||
        decide (entryToUpdate.start = "")) with
    | true =>
      rw [if_pos hC] at hmem
      simp only [List.mem_append, List.mem_cons, List.not_mem_nil, or_false, or_assoc] at hmem
      rcases hmem with h | h
      · exact h0 _ _ _ h
      · exact absurd h (by simp)
    | false =>
      rw [if_neg (by rw [hC]; exact Bool.false_ne_true)] at hmem
      rcases hM : env.getMembersResult entryToUpdate.organization_id with msg | members <;>
        rw [hM] at hmem <;> simp only [] at hmem
      · simp only [List.mem_append, List.mem_cons, List.not_mem_nil, or_false, or_assoc] at hmem
        rcases hmem with h | h | h
        · exact h0 _ _ _ h
        · exact absurd h (by simp)
        · exact absurd h (by simp)
      · rcases hF : members.find? (fun member => member.user_id = user.id) with _ | mem <;>
          rw [hF] at hmem <;> simp only [] at hmem
        · simp only [List.mem_append, List.mem_cons, List.not_mem_nil, or_false, or_assoc] at hmem
          rcases hmem with h | h | h
          · exact h0 _ _ _ h
          · exact absurd h (by simp)
          · exact absurd h (by simp)
        · rcases hP : env.putResult with msg | updated <;> rw [hP] at hmem <;>
            simp only [] at hmem <;>
            simp only [List.mem_append, List.mem_cons, List.not_mem_nil, or_false,
              or_assoc] at hmem
          · rcases hmem with h | h | h | h | h | h
            · exact h0 _ _ _ h
            · exact absurd h (by simp)
            · exact absurd h (by simp)
            · simp only [Event.call.injEq, ApiCall.putTimeEntry.injEq] at h
              rw [h.2.2]
              exact updatePayload_no_start _ _ _
            · exact absurd h (by simp)
            · exact absurd h (updateStatus_no_put env _ orgId entryId p)
          · rcases hmem with h | h | h | h | h | h
            · exact h0 _ _ _ h
            · exact absurd h (by simp)
            · exact absurd h (by simp)
            · simp only [Event.call.injEq, ApiCall.putTimeEntry.injEq] at h
              rw [h.2.2]
              exact updatePayload_no_start _ _ _
            · exact absurd h (by simp)
            · exact absurd h (by simp)

/-- C1: for every update or stop operation on the active time entry, the
constructed PUT payload never contains a `start` key — the stop payload
carries exactly `member_id`, `end`, `billable`, `project_id`, `task_id`,
`description`, `tags`, the live-update payload the same set without `end`,
and every PUT issued by `stopCurrentTimer` or `updateActiveTimerDetails`
carries a payload with no `start` key. -/
theorem put_payload_never_contains_start :
    (∀ correctMemberId endTs entryToStop,
      (stopPayload correctMemberId endTs entryToStop).map Prod.fst =
        ["member_id", "end", "billable", "project_id", "task_id", "description", "tags"]) ∧
    (∀ correctMemberId updates entryToUpdate,
      (updatePayload correctMemberId updates entryToUpdate).map Prod.fst =
        ["member_id", "billable", "project_id", "task_id", "description", "tags"]) ∧
    (∀ env now st orgId entryId p,
      Event.call (.putTimeEntry orgId entryId p) ∈ (stopCurrentTimer env now st).2 →
      "start" ∉ p.map Prod.fst) ∧
    (∀ env updates st orgId entryId p,
      Event.call (.putTimeEntry orgId entryId p) ∈ (updateActiveTimerDetails env updates st).2 →
      "start" ∉ p.map Prod.fst) := by
  refine ⟨stopPayload_keys, updatePayload_keys, ?_, ?_⟩
  · intro env now st orgId entryId p hmem
    unfold stopCurrentTimer at hmem
    split at hmem
    · exact absurd hmem (by simp)
    · cases hU : st.currentUser with
      | some user =>
        rw [hU] at hmem
        exact stopWithUser_put_no_start env now st user [] (by simp) _ _ _ hmem
      | none =>
        rw [hU] at hmem
        rcases hMe : env.getMeResult with msg | user <;> rw [hMe] at hmem
        · exact absurd hmem (by simp)
        · exact stopWithUser_put_no_start env now _ user [.call .getMe] (by simp) _ _ _ hmem
  · intro env updates st orgId entryId p hmem
    unfold updateActiveTimerDetails at hmem
    split at hmem
    · exact absurd hmem (by simp)
    · cases hU : st.currentUser with
      | some user =>
        rw [hU] at hmem
        exact updateWithUser_put_no_start env updates st user [] (by simp) _ _ _ hmem
      | none =>
        rw [hU] at hmem
        rcases hMe : env.getMeResult with msg | user <;> rw [hMe] at hmem
        · exact absurd hmem (by simp)
        · exact updateWithUser_put_no_start env updates _ user [.call .getMe] (by simp) _ _ _ hmem

/-- Witness for `put_payload_never_contains_start`: a stop and an update
actually issued against a running entry carry start-free payloads. -/
theorem put_payload_never_contains_start_witness :
    "start" ∉ (stopPayload "m1" (formatUtcWire t0) entryE1).map Prod.fst ∧
    "start" ∉ (updatePayload "m1" updatesNone entryE1).map Prod.fst :=
  ⟨put_payload_never_contains_start.2.2.1 envOk t0 stRunning "org1" "e1" _ (by decide),
   put_payload_never_contains_start.2.2.2 envOk updatesNone stRunning "org1" "e1" _ (by decide)⟩

/-! ### C6: startTimer state machine invariants -/

/-- C6: if an active entry is already cached, `startTimer` refuses, issues no
network request and leaves the whole state unchanged; if the start request
fails the local active entry stays `none`; if it succeeds the local active
entry is exactly the entry the server returned. -/
theorem startTimer_state_machine :
    (∀ env now options st entry, st.activeTimeEntry = some entry →
      (startTimer env now options st).1 = st ∧
      callsOf (startTimer env now options st).2 = []) ∧
    (∀ env now options st msg, checkSettingsAndApi st = true →
      st.settings.selectedMemberId ≠ "" → st.activeTimeEntry = none →
      env.postResult = .error msg →
      (startTimer env now options st).1.activeTimeEntry = none) ∧
    (∀ env now options st newEntry, checkSettingsAndApi st = true →
      st.settings.selectedMemberId ≠ "" → st.activeTimeEntry = none →
      env.postResult = .ok newEntry →
      (startTimer env now options st).1.activeTimeEntry = some newEntry) := by
  refine ⟨?_, ?_, ?_⟩
  · intro env now options st entry hA
    unfold startTimer
    split
    · exact ⟨rfl, rfl⟩
    · split
      · exact ⟨rfl, rfl⟩
      · rw [hA]
        exact ⟨rfl, rfl⟩
  · intro env now options st msg hcheck hmid hA hpost
    simp [startTimer, hcheck, hmid, hA, hpost]
  · intro env now options st newEntry hcheck hmid hA hpost
    simp [startTimer, hcheck, hmid, hA, hpost]

/-- Witness for `startTimer_state_machine`: starting while running changes
nothing and issues no call; a failed start leaves the state idle; a
successful start installs the server's entry. -/
theorem startTimer_state_machine_witness :
    ((startTimer envOk t0 optsNone stRunning).1 = stRunning ∧
      callsOf (startTimer envOk t0 optsNone stRunning).2 = []) ∧
    (startTimer envPutFail t0 optsNone stIdle).1.activeTimeEntry = none ∧
    (startTimer envOk t0 optsNone stIdle).1.activeTimeEntry = some entryE1 :=
  ⟨startTimer_state_machine.1 envOk t0 optsNone stRunning entryE1 rfl,
   startTimer_state_machine.2.1 envPutFail t0 optsNone stIdle "SolidTime API Error: 500"
     (by decide) (by decide) rfl rfl,
   startTimer_state_machine.2.2 envOk t0 optsNone stIdle entryE1
     (by decide) (by decide) rfl rfl⟩

/-! ### C2: member-id resolution -/

/-- C2 counterexample: in a configured state whose cached member id is
absent, with a member list available that does contain the current user,
`startTimer` performs no `getMembers` fetch at all (and no write) — it fails
immediately with the "Member ID missing" notice, contradicting the claim
that start re-derives the member id before the write. -/
theorem member_resolution_cex :
    stNoMemberId.settings.selectedMemberId = "" ∧
    envOk.getMembersResult "org1" = .ok [memberM1] ∧
    startTimer envOk t0 optsNone stNoMemberId =
      (stNoMemberId,
        [.notice "Error: Member ID missing. Please re-select organization in settings."]) ∧
    callsOf (startTimer envOk t0 optsNone stNoMemberId).2 = [] := by
  refine ⟨rfl, rfl, by decide, by decide⟩

/-- C2 amended: with an absent cached member id, `startTimer` fails with no
write and no re-derivation; `stopCurrentTimer` and `updateActiveTimerDetails`
always re-derive the member id by fetching the members of the entry's
organization and matching on `user_id = currentUser.id` (they never use the
cached id), and when no member matches they fail with the
"user not found in organization" notice and perform no write. -/
theorem member_resolution_amended :
    (∀ env now options st, st.settings.selectedMemberId = "" →
      (startTimer env now options st).1 = st ∧
      callsOf (startTimer env now options st).2 = []) ∧
    (∀ env now st user entry members,
      apiConfigured st = true → st.currentUser = some user →
      st.activeTimeEntry = some entry → entry.organization_id ≠ "" → entry.start ≠ "" →
      env.getMembersResult entry.organization_id = .ok members →
      (ApiCall.getMembers entry.organization_id ∈ callsOf (stopCurrentTimer env now st).2) ∧
      (members.find? (fun member => member.user_id = user.id) = none →
        stopCurrentTimer env now st =
          (st, [.call (.getMembers entry.organization_id),
            .notice ("Error: Your user was not found in the timer's organization (" ++
              entry.organization_id ++ "). Cannot stop timer."),
            .notice "Error: Could not determine correct Member ID. Cannot stop timer."]))) ∧
    (∀ env updates st user entry members,
      apiConfigured st = true → st.currentUser = some user →
      st.activeTimeEntry = some entry → entry.organization_id ≠ "" → entry.start ≠ "" →
      env.getMembersResult entry.organization_id = .ok members →
      (ApiCall.getMembers entry.organization_id ∈
        callsOf (updateActiveTimerDetails env updates st).2) ∧
      (members.find? (fun member => member.user_id = user.id) = none →
        updateActiveTimerDetails env updates st =
          (st, [.call (.getMembers entry.organization_id),
            .notice ("Error: User not found in org " ++ entry.organization_id ++ ".")]))) := by
  refine ⟨?_, ?_, ?_⟩
  · intro env now options st hmid
    unfold startTimer
    split
    · exact ⟨rfl, rfl⟩
    · simp [hmid, callsOf]
  · intro env now st user entry members hconf hU hA horg hstart hM
    have hred : stopCurrentTimer env now st = stopWithUser env now st user [] := by
      unfold stopCurrentTimer
      rw [if_neg (by simp [hconf]), hU]
    have hcond : (decide (entry.organization_id = "") || decide (entry.start = "")) = false := by
      simp [horg, hstart]
    constructor
    · rw [hred]
      unfold stopWithUser
      rw [hA]
      simp only []
      rw [if_neg (by rw [hcond]; exact Bool.false_ne_true), hM]
      simp only []
      rcases hF : members.find? (fun member => member.user_id = user.id) with _ | mem <;>
        (try rw [hF]) <;> simp only []
      · simp [callsOf]
      · rcases hP : env.putResult with msg | updated <;> (try rw [hP]) <;> simp only [] <;>
          simp [callsOf, List.filterMap_append]
    · intro hF
      rw [hred]
      unfold stopWithUser
      rw [hA]
      simp only []
      rw [if_neg (by rw [hcond]; exact Bool.false_ne_true), hM]
      simp only []
      rw [hF]
      simp
  · intro env updates st user entry members hconf hU hA horg hstart hM
    have hred : updateActiveTimerDetails env updates st = updateWithUser env updates st user [] := by
      unfold updateActiveTimerDetails
      rw [if_neg (by simp [hconf]), hU]
    have hcond : (decide (entry.organization_id = "") || decide (entry.start = "")) = false := by
      simp [horg, hstart]
    constructor
    · rw [hred]
      unfold updateWithUser
      rw [hA]
      simp only []
      rw [if_neg (by rw [hcond]; exact Bool.false_ne_true), hM]
      simp only []
      rcases hF : members.find? (fun member => member.user_id = user.id) with _ | mem <;>
        (try rw [hF]) <;> simp only []
      · simp [callsOf]
      · rcases hP : env.putResult with msg | updated <;> (try rw [hP]) <;> simp only [] <;>
          simp [callsOf, List.filterMap_append]
    · intro hF
      rw [hred]
      unfold updateWithUser
      rw [hA]
      simp only []
      rw [if_neg (by rw [hcond]; exact Bool.false_ne_true), hM]
      simp only []
      rw [hF]
      simp

/-- Witness for `member_resolution_amended`: a start with an absent cached
member id performs no call; a stop and an update against an organization
whose member list does not contain the user re-derive via `getMembers` and
fail with the user-not-found notices, issuing no PUT. -/
theorem member_resolution_amended_witness :
    ((startTimer envOk t0 optsNone stNoMemberId).1 = stNoMemberId ∧
      callsOf (startTimer envOk t0 optsNone stNoMemberId).2 = []) ∧
    stopCurrentTimer envNoMatch t0 stRunning =
      (stRunning, [.call (.getMembers "org1"),
        .notice ("Error: Your user was not found in the timer's organization (" ++
          "org1" ++ "). Cannot stop timer."),
        .notice "Error: Could not determine correct Member ID. Cannot stop timer."]) ∧
    updateActiveTimerDetails envNoMatch updatesNone stRunning =
      (stRunning, [.call (.getMembers "org1"),
        .notice ("Error: User not found in org " ++ "org1" ++ ".")]) :=
  ⟨member_resolution_amended.1 envOk t0 optsNone stNoMemberId rfl,
   (member_resolution_amended.2.1 envNoMatch t0 stRunning userU1 entryE1 []
      rfl rfl rfl (by decide) (by decide) rfl).2 rfl,
   (member_resolution_amended.2.2 envNoMatch updatesNone stRunning userU1 entryE1 []
      rfl rfl rfl (by decide) (by decide) rfl).2 rfl⟩


/-! ### C3: optimistic clear and reconciliation on failed stop -/

/-- C3: `stopCurrentTimer` records the optimistic clear of the local active
entry (and the UI refresh) strictly before the PUT in its event trace, and
when the PUT fails it does not restore the cleared entry but refetches the
status, leaving the local state equal to whatever the server reports. -/
theorem stop_optimistic_clear (env : ApiEnv) (now : UTCTime) (st : PluginState)
    (user : UserResource) (entry : TimeEntryResource) (members : List MemberResource)
    (currentMembership : MemberResource)
    (hconf : apiConfigured st = true) (hU : st.currentUser = some user)
    (hA : st.activeTimeEntry = some entry) (horg : entry.organization_id ≠ "")
    (hstart : entry.start ≠ "")
    (hM : env.getMembersResult entry.organization_id = .ok members)
    (hF : members.find? (fun member => member.user_id = user.id) = some currentMembership) :
    (∃ evsTail,
      (stopCurrentTimer env now st).2 =
        [.call (.getMembers entry.organization_id),
         .notice "SolidTime: Stopping timer...",
         Event.clearedActiveEntry, Event.uiRefresh,
         .call (.putTimeEntry entry.organization_id entry.id
           (stopPayload currentMembership.id (formatUtcWire now) entry))] ++ evsTail) ∧
    (∀ msg, env.putResult = .error msg →
      ApiCall.getActive ∈ callsOf (stopCurrentTimer env now st).2 ∧
      (stopCurrentTimer env now st).1.activeTimeEntry =
        (match env.getActiveResult with
         | .ok v => v
         | .error _ => none)) := by
  have hred : stopCurrentTimer env now st = stopWithUser env now st user [] := by
    unfold stopCurrentTimer
    rw [if_neg (by simp [hconf]), hU]
  have hcond : (decide (entry.organization_id = "") || decide (entry.start = "")) = false := by
    simp [horg, hstart]
  rw [hred]
  unfold stopWithUser
  rw [hA]
  simp only []
  rw [if_neg (by rw [hcond]; exact Bool.false_ne_true), hM]
  simp only []
  rw [hF]
  simp only []
  constructor
  · rcases hP : env.putResult with msg | updated <;> (try rw [hP]) <;> simp only []
    · exact ⟨(updateStatus env { st with activeTimeEntry := none }).2 ++
        [.notice "SolidTime: Failed to stop timer. Status refreshed."], by simp⟩
    · exact ⟨[.notice "SolidTime: Timer stopped!"], by simp⟩
  · intro msg hP
    rw [hP]
    simp only []
    have hconf2 : apiConfigured { st with activeTimeEntry := none } = true := hconf
    constructor
    · unfold updateStatus
      rw [if_neg (by simp [hconf2])]
      rcases hG : env.getActiveResult with msg2 | v <;> (try rw [hG]) <;>
        simp [callsOf, List.filterMap_append]
    · unfold updateStatus
      rw [if_neg (by simp [hconf2])]
      rcases hG : env.getActiveResult with msg2 | v <;> (try rw [hG]) <;> simp only [] <;> simp

/-- Witness for `stop_optimistic_clear`: with a failing PUT and a server that
still reports `entryE1`, the trace clears before the PUT and the final local
state is again `entryE1`. -/
theorem stop_optimistic_clear_witness :
    (∃ evsTail,
      (stopCurrentTimer envPutFail t0 stRunning).2 =
        [.call (.getMembers "org1"),
         .notice "SolidTime: Stopping timer...",
         Event.clearedActiveEntry, Event.uiRefresh,
         .call (.putTimeEntry "org1" "e1"
           (stopPayload "m1" (formatUtcWire t0) entryE1))] ++ evsTail) ∧
    (∀ msg, envPutFail.putResult = .error msg →
      ApiCall.getActive ∈ callsOf (stopCurrentTimer envPutFail t0 stRunning).2 ∧
      (stopCurrentTimer envPutFail t0 stRunning).1.activeTimeEntry =
        (match envPutFail.getActiveResult with
         | .ok v => v
         | .error _ => none)) :=
  stop_optimistic_clear envPutFail t0 stRunning userU1 entryE1 [memberM1] memberM1
    rfl rfl rfl (by decide) (by decide) rfl (by decide)


/-! ### C4: pagination -/

theorem fetchAllPaginated_isSome {α : Type} (pages : String → Option (PageResponse α))
    (hne : ∀ u data next, pages u = some (.page data next) → data ≠ []) :
    ∀ fuel allData url, allData.length ≤ 10000 → 10002 ≤ fuel + allData.length →
      (fetchAllPaginated pages fuel allData url).isSome = true := by
  intro fuel
  induction fuel with
  | zero =>
    intro allData url h1 h2
    cases url with
    | none => simp [fetchAllPaginated]
    | some u => omega
  | succ f ih =>
    intro allData url h1 h2
    cases url with
    | none => simp [fetchAllPaginated]
    | some u =>
      rw [fetchAllPaginated]
      cases hp : pages u with
      | none => simp
      | some pr =>
        cases pr with
        | malformed => simp
        | page data next =>
          simp only []
          split
          · simp
          · rename_i hlen
            have hd : data ≠ [] := hne u data next hp
            have hd1 : 1 ≤ data.length := by
              cases data with
              | nil => exact absurd rfl hd
              | cons a l => simp
            apply ih
            · simp only [List.length_append] at hlen ⊢
              omega
            · simp only [List.length_append]
              omega

theorem fetchAllPaginated_emptyCycle (fuel : Nat) (u : String) :
    fetchAllPaginated pagesEmptyCycle fuel [] (some u) = none := by
  induction fuel generalizing u with
  | zero => rfl
  | succ f ih => simpa [fetchAllPaginated, pagesEmptyCycle] using ih "again"

/-- C4 counterexample: the claim asserts `fetchAllPaginated` terminates for
every page sequence, but on a cyclic next link over pages whose data arrays
are empty the accumulator never grows past the ceiling and the loop never
finishes, for any amount of fuel. -/
theorem pagination_termination_cex : ¬ fetchTerminates pagesEmptyCycle "p1" := by
  rintro ⟨fuel, hs⟩
  rw [fetchAllPaginated_emptyCycle] at hs
  simp at hs

/-- C4 amended: `fetchAllPaginated` returns the concatenation of the pages in
server page order (three linked pages of ten items yield exactly those
thirty items), stops without error on a malformed page envelope, and
terminates for every page sequence whose well-formed pages are all
non-empty — in particular a cyclic next link over non-empty pages stops via
the 10,000-item safety ceiling; only a cycle of empty pages loops forever. -/
theorem pagination_termination_amended :
    (∀ fuel, fetchAllPaginated pages3 (fuel + 4) [] (some "p1") =
      some [1, 2, 3, 4, 5, 6, 7, 8, 9, 10, 11, 12, 13, 14, 15, 16, 17, 18, 19, 20,
            21, 22, 23, 24, 25, 26, 27, 28, 29, 30]) ∧
    (∀ (α : Type) (pages : String → Option (PageResponse α)) fuel allData url,
      pages url = some .malformed →
      fetchAllPaginated pages (fuel + 1) allData (some url) = some allData) ∧
    (∀ (α : Type) (pages : String → Option (PageResponse α)) initialUrl,
      (∀ u data next, pages u = some (.page data next) → data ≠ []) →
      fetchTerminates pages initialUrl) := by
  refine ⟨?_, ?_, ?_⟩
  · intro fuel
    show fetchAllPaginated pages3 (fuel + 3 + 1) [] (some "p1") = _
    rw [fetchAllPaginated]
    simp only [pages3, reduceIte, String.reduceEq]
    rw [if_neg (by norm_num)]
    show fetchAllPaginated pages3 (fuel + 2 + 1) _ (some "p2") = _
    rw [fetchAllPaginated]
    simp only [pages3, reduceIte, String.reduceEq]
    rw [if_neg (by norm_num)]
    show fetchAllPaginated pages3 (fuel + 1 + 1) _ (some "p3") = _
    rw [fetchAllPaginated]
    simp only [pages3, reduceIte, String.reduceEq]
    rw [if_neg (by norm_num)]
    show fetchAllPaginated pages3 (fuel + 1) _ none = _
    rw [fetchAllPaginated]
    decide
  · intro α pages fuel allData url hmal
    rw [fetchAllPaginated, hmal]
  · intro α pages initialUrl hne
    exact ⟨10002, fetchAllPaginated_isSome pages hne 10002 [] (some initialUrl)
      (by simp) (by simp)⟩

/-- Witness for `pagination_termination_amended`: pagination over a cyclic
next link with ten-item pages terminates. -/
theorem pagination_termination_amended_witness : fetchTerminates pagesCycle10 "p1" :=
  pagination_termination_amended.2.2 Nat pagesCycle10 "p1"
    (fun u data next h => by
      simp only [pagesCycle10, Option.some.injEq, PageResponse.page.injEq] at h
      rw [← h.1]
      simp)


/-! ### C9: tag creation and the sorted tag cache -/

/-- C9: creating a tag whose name already exists in the local list
(case-insensitively) is rejected before any network call; creating a
uniquely-named tag issues the create request, appends the returned tag to
the plugin's tag cache and the modal's list, and re-sorts both by name so
they are sorted. -/
theorem tag_cache_create (postTagResult : Except String TagResource) (st : PluginState)
    (availableTags : List TagResource) (newTagName : String) :
    (newTagName ≠ "" →
      availableTags.any (fun t => toLowerCase t.name = toLowerCase newTagName) = true →
      tagModalCreateClick postTagResult st availableTags newTagName =
        (st, availableTags, [.notice ("Tag \"" ++ newTagName ++ "\" already exists.")])) ∧
    (∀ newTag, newTagName ≠ "" →
      availableTags.any (fun t => toLowerCase t.name = toLowerCase newTagName) = false →
      checkSettingsAndApi st = true →
      postTagResult = .ok newTag →
      callsOf (tagModalCreateClick postTagResult st availableTags newTagName).2.2 =
        [.postTag st.settings.selectedOrganizationId newTagName] ∧
      (tagModalCreateClick postTagResult st availableTags newTagName).1.tags =
        List.insertionSort tagLe (st.tags ++ [newTag]) ∧
      List.Sorted tagLe (tagModalCreateClick postTagResult st availableTags newTagName).1.tags ∧
      List.Perm (tagModalCreateClick postTagResult st availableTags newTagName).1.tags
        (st.tags ++ [newTag]) ∧
      (tagModalCreateClick postTagResult st availableTags newTagName).2.1 =
        List.insertionSort tagLe (availableTags ++ [newTag]) ∧
      List.Sorted tagLe (tagModalCreateClick postTagResult st availableTags newTagName).2.1) := by
  constructor
  · intro hname hdup
    simp [tagModalCreateClick, hname, hdup]
  · intro newTag hname hdup hcheck hok
    have horg : st.settings.selectedOrganizationId ≠ "" := by
      simp only [checkSettingsAndApi, Bool.not_eq_true', Bool.or_eq_false_iff,
        decide_eq_false_iff_not] at hcheck
      exact hcheck.2
    have hred : tagModalCreateClick postTagResult st availableTags newTagName =
        ({ st with tags := List.insertionSort tagLe (st.tags ++ [newTag]) },
         List.insertionSort tagLe (availableTags ++ [newTag]),
         [.call (.postTag st.settings.selectedOrganizationId newTagName),
          .notice ("Tag \"" ++ newTag.name ++ "\" created.")]) := by
      simp [tagModalCreateClick, createTag, hname, hdup, hcheck, horg, hok]
    rw [hred]
    exact ⟨by simp [callsOf], rfl, List.sorted_insertionSort tagLe _,
      List.perm_insertionSort tagLe _, rfl, List.sorted_insertionSort tagLe _⟩

/-- Witness for `tag_cache_create`: creating "Focus" while a "focus" tag is
cached is rejected with no call; creating it against an empty cache issues
the request and installs a sorted cache. -/
theorem tag_cache_create_witness :
    tagModalCreateClick (.ok ⟨"g9", "Focus"⟩) stIdle [⟨"g1", "focus"⟩] "Focus" =
      (stIdle, [⟨"g1", "focus"⟩],
        [.notice ("Tag \"" ++ "Focus" ++ "\" already exists.")]) ∧
    callsOf (tagModalCreateClick (.ok ⟨"g9", "Focus"⟩) stIdle [] "Focus").2.2 =
      [.postTag stIdle.settings.selectedOrganizationId "Focus"] ∧
    (tagModalCreateClick (.ok ⟨"g9", "Focus"⟩) stIdle [] "Focus").1.tags =
      List.insertionSort tagLe (stIdle.tags ++ [⟨"g9", "Focus"⟩]) ∧
    List.Sorted tagLe (tagModalCreateClick (.ok ⟨"g9", "Focus"⟩) stIdle [] "Focus").1.tags :=
  ⟨(tag_cache_create (.ok ⟨"g9", "Focus"⟩) stIdle [⟨"g1", "focus"⟩] "Focus").1
      (by decide) (by decide),
   ((tag_cache_create (.ok ⟨"g9", "Focus"⟩) stIdle [] "Focus").2 ⟨"g9", "Focus"⟩
      (by decide) (by decide) (by decide) rfl).1,
   ((tag_cache_create (.ok ⟨"g9", "Focus"⟩) stIdle [] "Focus").2 ⟨"g9", "Focus"⟩
      (by decide) (by decide) (by decide) rfl).2.1,
   ((tag_cache_create (.ok ⟨"g9", "Focus"⟩) stIdle [] "Focus").2 ⟨"g9", "Focus"⟩
      (by decide) (by decide) (by decide) rfl).2.2.1⟩


/-! ### C10: formatDuration is total and well-formed -/

theorem digitChar_toNat : ∀ d, d < 10 → (digitChar d).toNat = 48 + d := by decide

theorem decRepr_all_isDigit (n : Nat) : (decRepr n).all Char.isDigit = true := by
  induction n using Nat.strong_induction_on with
  | _ n ih =>
    rw [decRepr]
    split
    · rename_i h
      simp [digitChar_isDigit n h]
    · rename_i h
      have := ih (n / 10) (Nat.div_lt_self (by omega) (by omega))
      simp [List.all_append, this, digitChar_mod10_isDigit]

theorem decRepr_length_pos (n : Nat) : 1 ≤ (decRepr n).length := by
  rw [decRepr]
  split
  · simp
  · simp

theorem valOfDigits_append (l : List Char) (c : Char) :
    valOfDigits (l ++ [c]) = 10 * valOfDigits l + (c.toNat - 48) := by
  simp [valOfDigits, List.foldl_append]

theorem valOfDigits_decRepr (n : Nat) : valOfDigits (decRepr n) = n := by
  induction n using Nat.strong_induction_on with
  | _ n ih =>
    rw [decRepr]
    split
    · rename_i h
      simp [valOfDigits, digitChar_toNat n h]
    · rename_i h
      rw [valOfDigits_append, ih (n / 10) (Nat.div_lt_self (by omega) (by omega)),
        digitChar_toNat (n % 10) (Nat.mod_lt _ (by omega))]
      omega

theorem decRepr_length_le_two (n : Nat) (h : n < 100) : (decRepr n).length ≤ 2 := by
  rw [decRepr]
  split
  · simp
  · rename_i h10
    rw [decRepr]
    have : n / 10 < 10 := by omega
    simp [this]

theorem decRepr_length_ge_two (n : Nat) (h : 10 ≤ n) : 2 ≤ (decRepr n).length := by
  rw [decRepr]
  split
  · omega
  · have := decRepr_length_pos (n / 10)
    simp
    omega

theorem decRepr_length_ge_three (n : Nat) (h : 100 ≤ n) : 3 ≤ (decRepr n).length := by
  rw [decRepr]
  split
  · omega
  · have := decRepr_length_ge_two (n / 10) (by omega)
    simp
    omega

theorem padStart2_length (l : List Char) (h : l.length ≤ 2) : (padStart2 l).length = 2 := by
  unfold padStart2
  split
  · omega
  · simp
    omega

theorem padStart2_length_ge (l : List Char) : 2 ≤ (padStart2 l).length := by
  unfold padStart2
  split
  · omega
  · simp
    omega

theorem padStart2_of_long (l : List Char) (h : 2 ≤ l.length) : padStart2 l = l := by
  unfold padStart2
  exact if_pos h

theorem padStart2_all_isDigit (l : List Char) (h : l.all Char.isDigit = true) :
    (padStart2 l).all Char.isDigit = true := by
  unfold padStart2
  split
  · exact h
  · simp only [List.all_append, h, Bool.and_true]
    simp [List.all_eq_true]

theorem valOfDigits_replicate_zero (k : Nat) (l : List Char) :
    valOfDigits (List.replicate k '0' ++ l) = valOfDigits l := by
  induction k with
  | zero => simp
  | succ k ih =>
    rw [List.replicate_succ, List.cons_append]
    show List.foldl _ (10 * 0 + ('0'.toNat - 48)) _ = _
    simpa [valOfDigits] using ih

theorem padStart2_val (l : List Char) : valOfDigits (padStart2 l) = valOfDigits l := by
  unfold padStart2
  split
  · rfl
  · exact valOfDigits_replicate_zero _ l

/-- C10: `formatDuration` is total over the embedded number domain: `NaN`
and negative inputs give `"00:00:00"`, and every non-negative input yields
`hours:minutes:seconds` where minutes and seconds are exactly two digits,
hours is at least two digits and carries the full floored hour count
(exceeding two digits at and beyond 100 hours), and each component's digits
decode to the corresponding component of the duration. -/
theorem formatDuration_total :
    formatDuration .nan = "00:00:00" ∧
    (∀ ms : Int, ms < 0 → formatDuration (.int ms) = "00:00:00") ∧
    (∀ ms : Int, 0 ≤ ms →
      ∃ h m s : List Char,
        (formatDuration (.int ms)).data = h ++ ':' :: m ++ ':' :: s ∧
        (h ++ m ++ s).all Char.isDigit = true ∧
        2 ≤ h.length ∧ m.length = 2 ∧ s.length = 2 ∧
        valOfDigits h = ms.toNat / 3600000 ∧
        valOfDigits m = ms.toNat / 60000 % 60 ∧
        valOfDigits s = ms.toNat / 1000 % 60 ∧
        (100 ≤ ms.toNat / 3600000 → 3 ≤ h.length)) := by
  refine ⟨rfl, ?_, ?_⟩
  · intro ms hneg
    simp [formatDuration, hneg]
  · intro ms hpos
    refine ⟨padStart2 (decRepr (ms.toNat / 3600000)),
      padStart2 (decRepr (ms.toNat / 60000 % 60)),
      padStart2 (decRepr (ms.toNat / 1000 % 60)), ?_, ?_, ?_, ?_, ?_, ?_, ?_, ?_, ?_⟩
    · simp only [formatDuration]
      rw [if_neg (by omega)]
    · simp only [List.all_append, Bool.and_eq_true]
      exact ⟨⟨padStart2_all_isDigit _ (decRepr_all_isDigit _),
        padStart2_all_isDigit _ (decRepr_all_isDigit _)⟩,
        padStart2_all_isDigit _ (decRepr_all_isDigit _)⟩
    · exact padStart2_length_ge _
    · exact padStart2_length _ (decRepr_length_le_two _ (by
        have := Nat.mod_lt (ms.toNat / 60000) (show 0 < 60 by omega)
        omega))
    · exact padStart2_length _ (decRepr_length_le_two _ (by
        have := Nat.mod_lt (ms.toNat / 1000) (show 0 < 60 by omega)
        omega))
    · rw [padStart2_val, valOfDigits_decRepr]
    · rw [padStart2_val, valOfDigits_decRepr]
    · rw [padStart2_val, valOfDigits_decRepr]
    · intro h100
      rw [padStart2_of_long _ (by
        have := decRepr_length_ge_three _ h100
        omega)]
      exact decRepr_length_ge_three _ h100

/-- Witness for `formatDuration_total`: a negative duration formats as
`"00:00:00"` and a non-negative one decomposes as specified. -/
theorem formatDuration_total_witness :
    formatDuration (.int (-1)) = "00:00:00" ∧
    (∃ h m s : List Char,
      (formatDuration (.int 360000000)).data = h ++ ':' :: m ++ ':' :: s ∧
      (h ++ m ++ s).all Char.isDigit = true ∧
      2 ≤ h.length ∧ m.length = 2 ∧ s.length = 2 ∧
      valOfDigits h = (360000000 : Int).toNat / 3600000 ∧
      valOfDigits m = (360000000 : Int).toNat / 60000 % 60 ∧
      valOfDigits s = (360000000 : Int).toNat / 1000 % 60 ∧
      (100 ≤ (360000000 : Int).toNat / 3600000 → 3 ≤ h.length)) :=
  ⟨formatDuration_total.2.1 (-1) (by decide),
   formatDuration_total.2.2 360000000 (by decide)⟩

end SolidTime
